import Mathlib

/-! PixelPusher

A shallow embedding of `PixelPusher.cpp` (an SDL2 program that repaints a window with
random pixels until a key is pressed) together with theorems about its lifecycle,
render loop and statistics.

The SDL library is outside the program.  It is modelled as a deterministic platform
`Platform` that scripts the answer of every SDL call, and every call the program makes is
appended to a log kept in the program state, so that statements such as
"no present is performed" become statements about that log.

Machine integers are `Nat` / `Int` with explicit reduction modulo `2^32` or `2^64`.
-/

namespace PixelPusher

/-! ## Constants (lines 8-13) -/

def g_kWindowWidth : Int := 1920
def g_kWindowHeight : Int := 1080
def g_kRenderWidth : Int := Int.tdiv g_kWindowWidth 5
def g_kRenderHeight : Int := Int.tdiv g_kWindowHeight 5
def g_kRenderDeviceFlags : Int := -1
def g_kErrorOccurred : Int := -1

/-! ## Machine integers -/

/-- Conversion of a mathematical integer to `uint32_t` (reduction modulo `2^32`). -/
def toUInt32 (z : Int) : Nat := (z % 2 ^ 32).toNat

/-- Conversion of a mathematical integer to `uint64_t` (reduction modulo `2^64`). -/
def toUInt64 (z : Int) : Nat := (z % 2 ^ 64).toNat

/-- Conversion of an unsigned value to `int32_t` (two's complement). -/
def toInt32 (n : Nat) : Int :=
  if n % 2 ^ 32 < 2 ^ 31 then ((n % 2 ^ 32 : Nat) : Int) else ((n % 2 ^ 32 : Nat) : Int) - 2 ^ 32

/-- Subtraction of two `uint32_t` values. -/
def sub32 (a b : Nat) : Nat := (a % 2 ^ 32 + 2 ^ 32 - b % 2 ^ 32) % 2 ^ 32

/-- Subtraction of two `uint64_t` values. -/
def sub64 (a b : Nat) : Nat := (a % 2 ^ 64 + 2 ^ 64 - b % 2 ^ 64) % 2 ^ 64

/-- Addition of two `uint64_t` values. -/
def add64 (a b : Nat) : Nat := (a + b) % 2 ^ 64

/-! ## The platform (SDL) -/

/-- A non-null SDL object pointer; the null pointer is `none : Option Handle`. -/
abbrev Handle := Nat

/-- An SDL event; the program only inspects its `type` field. -/
structure SDL_Event where
  type : Nat
  deriving DecidableEq, Repr

def SDL_QUIT : Nat := 0x100
def SDL_KEYDOWN : Nat := 0x300
def SDL_KEYUP : Nat := 0x301
def SDL_MOUSEMOTION : Nat := 0x400

/-- The display mode fields read by the program. -/
structure SDL_DisplayMode where
  w : Int
  h : Int
  deriving DecidableEq, Repr

/-- The diagnostics passed to `e` in the source, in order of appearance. -/
inductive Diagnostic
  | failedToCreateWindow
  | failedToCreateBackBufferTexture
  | pointerToWindowWasNull
  | noWindow
  | pointerToRendererWasNull
  | noRenderer
  | pointerToTextureWasNull
  | noBackBufferTexture
  | renderFailed
  | startupFailed
  deriving DecidableEq, Repr

/-- The three statistics lines written to `std::cout` at the end of `main`.  The two
floating-point lines are kept symbolically, as the operands of the `double` expression the
source evaluates: `totalTime ticks freq` is `double(ticks) / freq` and
`averageFPS frames freq ticks` is `double(frames) * freq / ticks`. -/
inductive Output
  | totalFrames (frames : Nat)
  | totalTime (ticks freq : Nat)
  | averageFPS (frames freq ticks : Nat)
  deriving DecidableEq, Repr

/-- One observable action of the program: an SDL call with the arguments that matter, a
store into the locked pixel buffer, a diagnostic, or a line of output. -/
inductive Call
  | SDL_Init
  | SDL_GetCurrentDisplayMode
  | SDL_CreateWindow (x y w h : Int)
  | SDL_CreateRenderer (window : Option Handle) (accelerated : Bool)
  | SDL_CreateTexture (renderer : Option Handle) (w h : Int)
  | SDL_DestroyTexture (texture : Option Handle)
  | SDL_DestroyRenderer (renderer : Option Handle)
  | SDL_DestroyWindow (window : Option Handle)
  | SDL_LockTexture (texture : Option Handle)
  | store (index value : Nat)
  | SDL_UnlockTexture (texture : Option Handle)
  | SDL_RenderCopy (renderer texture : Option Handle)
  | SDL_RenderPresent (renderer : Option Handle)
  | SDL_PollEvent
  | SDL_GetPerformanceCounter
  | SDL_GetPerformanceFrequency
  | diagnostic (d : Diagnostic)
  | cout (o : Output)
  deriving DecidableEq, Repr

/-- The scripted answers of the platform.  `lock k` is the answer of the `k`-th call of
`SDL_LockTexture` (return code, `0` meaning success, and pitch in bytes), `copy k` the return
code of the `k`-th `SDL_RenderCopy`, `events k` the events that arrive while the `k`-th frame
is being produced (they join the queue when that frame is presented), `counter k` the `k`-th
reading of the performance counter and `rand k` the `k`-th value returned by `FastRand`.
Counting starts at `0`. -/
structure Platform where
  display : SDL_DisplayMode
  window : Option Handle
  renderer : Bool → Option Handle
  texture : Option Handle
  lock : Nat → Int × Int
  copy : Nat → Int
  events : Nat → List SDL_Event
  counter : Nat → Nat
  frequency : Nat
  rand : Nat → Nat

/-- The program state: the three pointer variables of `main`, the log of observable actions,
the memory of the back-buffer texture, the pending event queue and the number of scripted
answers consumed so far. -/
structure State where
  pWindow : Option Handle
  pRenderer : Option Handle
  pTexture : Option Handle
  log : List Call
  pixels : Nat → Nat
  queue : List SDL_Event
  locks : Nat
  copies : Nat
  presents : Nat
  reads : Nat
  rands : Nat

/-- The state in which `main` starts: the three pointers are `nullptr` (lines 192-194),
nothing has happened yet and no event is pending. -/
def State.start : State :=
  { pWindow := none, pRenderer := none, pTexture := none, log := [], pixels := fun _ => 0,
    queue := [], locks := 0, copies := 0, presents := 0, reads := 0, rands := 0 }

/-- Append one action to the log. -/
def State.emit (s : State) (c : Call) : State := { s with log := s.log ++ [c] }

/-- An argument of type `T**`: the null pointer, or the address of the matching pointer
variable of `main`. -/
inductive OutPtr
  | null
  | var
  deriving DecidableEq, Repr

def OutPtr.isNull : OutPtr → Bool
  | .null => true
  | .var => false

/-- The assignment `*ppWindow = v`. -/
def State.setWindow (s : State) (pp : OutPtr) (v : Option Handle) : State :=
  match pp with
  | .var => { s with pWindow := v }
  | .null => s

/-- The assignment `*ppRenderer = v`. -/
def State.setRenderer (s : State) (pp : OutPtr) (v : Option Handle) : State :=
  match pp with
  | .var => { s with pRenderer := v }
  | .null => s

/-- The assignment `*ppTexture = v`. -/
def State.setTexture (s : State) (pp : OutPtr) (v : Option Handle) : State :=
  match pp with
  | .var => { s with pTexture := v }
  | .null => s

def SDL_Init (s : State) : State := s.emit .SDL_Init

def SDL_GetCurrentDisplayMode (env : Platform) (s : State) : SDL_DisplayMode × State :=
  (env.display, s.emit .SDL_GetCurrentDisplayMode)

def SDL_CreateWindow (env : Platform) (x y w h : Int) (s : State) : Option Handle × State :=
  (env.window, s.emit (.SDL_CreateWindow x y w h))

/-- SDL refuses to create a renderer for a null window. -/
def SDL_CreateRenderer (env : Platform) (pWindow : Option Handle) (accelerated : Bool)
    (s : State) : Option Handle × State :=
  (match pWindow with
    | none => none
    | some _ => env.renderer accelerated,
   s.emit (.SDL_CreateRenderer pWindow accelerated))

/-- SDL refuses to create a texture for a null renderer. -/
def SDL_CreateTexture (env : Platform) (pRenderer : Option Handle) (w h : Int)
    (s : State) : Option Handle × State :=
  (match pRenderer with
    | none => none
    | some _ => env.texture,
   s.emit (.SDL_CreateTexture pRenderer w h))

def SDL_DestroyTexture (p : Option Handle) (s : State) : State := s.emit (.SDL_DestroyTexture p)

def SDL_DestroyRenderer (p : Option Handle) (s : State) : State := s.emit (.SDL_DestroyRenderer p)

def SDL_DestroyWindow (p : Option Handle) (s : State) : State := s.emit (.SDL_DestroyWindow p)

/-- Returns the return code and the pitch in bytes of the next scripted lock. -/
def SDL_LockTexture (env : Platform) (pTexture : Option Handle) (s : State) :
    Int × Int × State :=
  ((env.lock s.locks).1, (env.lock s.locks).2,
    { s with locks := s.locks + 1, log := s.log ++ [.SDL_LockTexture pTexture] })

def SDL_UnlockTexture (pTexture : Option Handle) (s : State) : State :=
  s.emit (.SDL_UnlockTexture pTexture)

def SDL_RenderCopy (env : Platform) (pRenderer pTexture : Option Handle) (s : State) :
    Int × State :=
  (env.copy s.copies,
    { s with copies := s.copies + 1, log := s.log ++ [.SDL_RenderCopy pRenderer pTexture] })

/-- In SDL2 `SDL_RenderPresent` returns `void`.  The events that arrived while the frame was
being produced are pending afterwards. -/
def SDL_RenderPresent (env : Platform) (pRenderer : Option Handle) (s : State) : State :=
  { s with queue := s.queue ++ env.events s.presents, presents := s.presents + 1,
           log := s.log ++ [.SDL_RenderPresent pRenderer] }

/-- Takes the next pending event off the queue.  When nothing is pending the call returns
`none` (the C function returns `0`). -/
def SDL_PollEvent (s : State) : Option SDL_Event × State :=
  match s.queue with
  | ev :: rest => (some ev, { s with queue := rest, log := s.log ++ [.SDL_PollEvent] })
  | [] => (none, { s with log := s.log ++ [.SDL_PollEvent] })

/-- The counter is a `uint64_t`. -/
def SDL_GetPerformanceCounter (env : Platform) (s : State) : Nat × State :=
  (env.counter s.reads % 2 ^ 64,
    { s with reads := s.reads + 1, log := s.log ++ [.SDL_GetPerformanceCounter] })

def SDL_GetPerformanceFrequency (env : Platform) (s : State) : Nat × State :=
  (env.frequency % 2 ^ 64, s.emit .SDL_GetPerformanceFrequency)

/-! ## Utilities.h -/

/-- Modelled from the spec: `Utilities.h` is not part of the sources.  The helper `e` is used
as `if (e(condition, message)) ...`; following section 7 ("startup failures print a
diagnostic", "a render failure that was already logged") it reports the diagnostic when the
condition holds and returns the condition. -/
def e (cond : Bool) (d : Diagnostic) (s : State) : Bool × State :=
  (cond, if cond then s.emit (.diagnostic d) else s)

/-- Modelled from the spec: `Utilities.h` is not part of the sources.  Section 3 describes a
pixel as "a 32-bit value packed as components (alpha, red, green, blue), each an 8-bit
channel". -/
def ARGB (r g b a : Nat) : Nat :=
  (a % 256) * 2 ^ 24 + (r % 256) * 2 ^ 16 + (g % 256) * 2 ^ 8 + b % 256

/-- Modelled from the spec: `Utilities.h` is not part of the sources.  Section 4.3 calls the
channel generator "an injectable pseudo-random source"; its successive values are scripted by
the platform. -/
def FastRand (env : Platform) (s : State) : Nat × State :=
  (env.rand s.rands, { s with rands := s.rands + 1 })

/-! ## The program -/

/-- Lines 18-35.  `DM.w / 2` is an `int` division, `width / 2` a `uint32_t` division; the
subtraction is carried out in `uint32_t` and the result is converted to `int32_t`.  The
statement `if (e(...));` has an empty body. -/
def CreateCenteredWindow (env : Platform) (width height : Nat) (s : State) :
    Option Handle × State :=
  let (DM, s) := SDL_GetCurrentDisplayMode env s
  let x : Int := toInt32 (sub32 (toUInt32 (Int.tdiv DM.w 2)) (width % 2 ^ 32 / 2))
  let y : Int := toInt32 (sub32 (toUInt32 (Int.tdiv DM.h 2)) (height % 2 ^ 32 / 2))
  let (pWindow, s) := SDL_CreateWindow env x y (toInt32 width) (toInt32 height) s
  let (_, s) := e pWindow.isNone .failedToCreateWindow s
  (pWindow, s)

/-- Lines 38-44. -/
def CreateRenderer (env : Platform) (pWindow : Option Handle) (hardwareAccelerated : Bool)
    (s : State) : Option Handle × State :=
  if hardwareAccelerated then SDL_CreateRenderer env pWindow true s
  else SDL_CreateRenderer env pWindow false s

/-- Lines 47-55. -/
def CreateBackBufferTexture (env : Platform) (pRenderer : Option Handle) (s : State) :
    Option Handle × State :=
  let (pTexture, s) := SDL_CreateTexture env pRenderer g_kRenderWidth g_kRenderHeight s
  let (_, s) := e pTexture.isNone .failedToCreateBackBufferTexture s
  (pTexture, s)

/-- Lines 58-80. -/
def Shutdown (ppWindow ppRenderer ppTexture : OutPtr) (s : State) : State :=
  let s :=
    if !ppTexture.isNull then (SDL_DestroyTexture s.pTexture s).setTexture ppTexture none
    else s
  let s :=
    if !ppRenderer.isNull then (SDL_DestroyRenderer s.pRenderer s).setRenderer ppRenderer none
    else s
  let s :=
    if !ppWindow.isNull then (SDL_DestroyWindow s.pWindow s).setWindow ppWindow none
    else s
  s

/-- Lines 83-121.  Note that line 102 tests `!ppRenderer` where lines 91 and 113 test
`!*ppWindow` and `!*ppTexture`. -/
def Startup (env : Platform) (ppWindow ppRenderer ppTexture : OutPtr) (s : State) :
    Int × State :=
  let s := SDL_Init s
  let (c, s) := e ppWindow.isNull .pointerToWindowWasNull s
  if c then (-1, s) else
  let (w, s) := CreateCenteredWindow env (toUInt32 g_kWindowWidth) (toUInt32 g_kWindowHeight) s
  let s := s.setWindow ppWindow w
  let (c, s) := e s.pWindow.isNone .noWindow s
  if c then (-1, Shutdown ppWindow ppRenderer ppTexture s) else
  let (c, s) := e ppRenderer.isNull .pointerToRendererWasNull s
  if c then (-1, s) else
  let (r, s) := CreateRenderer env s.pWindow true s
  let s := s.setRenderer ppRenderer r
  let (c, s) := e ppRenderer.isNull .noRenderer s
  if c then (-1, Shutdown ppWindow ppRenderer ppTexture s) else
  let (c, s) := e ppTexture.isNull .pointerToTextureWasNull s
  if c then (-1, s) else
  let (t, s) := CreateBackBufferTexture env s.pRenderer s
  let s := s.setTexture ppTexture t
  let (c, s) := e s.pTexture.isNone .noBackBufferTexture s
  if c then (-1, Shutdown ppWindow ppRenderer ppTexture s) else
  (0, s)

/-- The body of the `switch` of lines 139-145: `SDL_KEYDOWN` falls through to `SDL_QUIT`,
every other event type leaves the flag alone. -/
def ProcessInput.handle (keepRenderLoopRunning : Bool) (event : SDL_Event) : Bool :=
  if event.type = SDL_KEYDOWN then false
  else if event.type = SDL_QUIT then false
  else keepRenderLoopRunning

set_option linter.unusedVariables false in
/-- The loop `while (SDL_PollEvent(&event)) ...` of lines 136-146. -/
def ProcessInput.loop (keepRenderLoopRunning : Bool) (s : State) : Bool × State :=
  match h : SDL_PollEvent s with
  | (some event, s1) => ProcessInput.loop (ProcessInput.handle keepRenderLoopRunning event) s1
  | (none, s1) => (keepRenderLoopRunning, s1)
termination_by s.queue.length
decreasing_by
  unfold SDL_PollEvent at h
  split at h
  · next ev rest hq =>
    simp only [Prod.mk.injEq] at h
    rw [← h.2, hq]
    simp
  · simp at h

/-- Lines 124-150. -/
def ProcessInput (s : State) : Bool × State :=
  ProcessInput.loop true s

/-- The loop of lines 172-173, `for (uint32_t i = 0; i < bound; ++i) pPixelBuffer[i] = ...`,
from the current value of `i`.  The three calls of `FastRand` are taken in the order in which
they are written.  The bound is below `2^32`, so that `++i` does not wrap. -/
def Render.fill (env : Platform) (bound : Nat) (i : Nat) (s : State) : State :=
  if i < bound then
    let (r, s) := FastRand env s
    let (g, s) := FastRand env s
    let (b, s) := FastRand env s
    let v := ARGB (r % 256) (g % 256) (b % 256) 255
    Render.fill env bound (i + 1)
      { s with pixels := Function.update s.pixels i v, log := s.log ++ [.store i v] }
  else s
termination_by bound - i

/-- Lines 155-188.  `SDL_LockTexture` returns `0` on success, so `!SDL_LockTexture(...)` is the
success branch.  The pitch is divided by `sizeof(uint32_t)` (line 169) and not read again. -/
def Render (env : Platform) (_pWindow pRenderer pTexture : Option Handle) (s : State) :
    Int × State :=
  let (rc, pitch, s) := SDL_LockTexture env pTexture s
  if rc = 0 then
    let _pitch : Int := toInt32 (toUInt64 pitch / 4)
    let s := Render.fill env (toUInt32 (g_kRenderWidth * g_kRenderHeight)) 0 s
    let s := SDL_UnlockTexture pTexture s
    let (_, s) := SDL_RenderCopy env pRenderer pTexture s
    let s := SDL_RenderPresent env pRenderer s
    (0, s)
  else (g_kErrorOccurred, s)

/-- The local variables of `main` that the render loop updates (lines 202-207). -/
structure Locals where
  running : Bool
  firstFrame : Bool
  totalTicks : Nat
  totalFramesRendered : Nat
  lastTick : Nat
  deriving DecidableEq, Repr

/-- The values of lines 202-207. -/
def Locals.start : Locals :=
  { running := true, firstFrame := true, totalTicks := 0, totalFramesRendered := 0,
    lastTick := 0 }

/-- The loop of lines 209-227.  An interactive program need not stop, so the loop is given a
number of iterations it may perform; `none` means that the loop is still running after that
many iterations. -/
def renderLoop (env : Platform) : Nat → Locals → State → Option (Locals × State)
  | 0, l, s => if l.running then none else some (l, s)
  | fuel + 1, l, s =>
    if l.running then
      if !l.firstFrame then
        let (rc, s) := Render env s.pWindow s.pRenderer s.pTexture s
        let (c, s) := e (rc != 0) .renderFailed s
        if c then some (l, s) else
        let (running, s) := ProcessInput s
        let (currentTick, s) := SDL_GetPerformanceCounter env s
        renderLoop env fuel
          { l with running := running,
                   totalTicks := add64 l.totalTicks (sub64 currentTick l.lastTick),
                   lastTick := currentTick,
                   totalFramesRendered := add64 l.totalFramesRendered 1 } s
      else
        let (t, s) := SDL_GetPerformanceCounter env s
        renderLoop env fuel { l with lastTick := t, firstFrame := false } s
    else some (l, s)

/-- Lines 229-232: the three statistics lines. -/
def report (env : Platform) (l : Locals) (s : State) : State :=
  let s := s.emit (.cout (.totalFrames l.totalFramesRendered))
  let (f, s) := SDL_GetPerformanceFrequency env s
  let s := s.emit (.cout (.totalTime l.totalTicks f))
  let (f, s) := SDL_GetPerformanceFrequency env s
  let s := s.emit (.cout (.averageFPS l.totalFramesRendered f l.totalTicks))
  s

/-- Lines 190-237.  The result is the exit code and the final state. -/
def main (env : Platform) (fuel : Nat) : Option (Int × State) :=
  let s := State.start
  let (rc, s) := Startup env .var .var .var s
  let (c, s) := e (rc != 0) .startupFailed s
  if c then some (-1, Shutdown .var .var .var s) else
  match renderLoop env fuel Locals.start s with
  | none => none
  | some (l, s) =>
    let s := report env l s
    let s := Shutdown .var .var .var s
    some (0, s)

/-! ## Vocabulary of the statements -/

/-- Whether an event is a key press or a quit request. -/
def isStop (ev : SDL_Event) : Bool := ev.type == SDL_KEYDOWN || ev.type == SDL_QUIT

/-- The colour stored by the fill loop when `FastRand` has been called `r` times before. -/
def pixelValue (env : Platform) (r : Nat) : Nat :=
  ARGB (env.rand r % 256) (env.rand (r + 1) % 256) (env.rand (r + 2) % 256) 255

/-- The stores performed by `n` iterations of the fill loop that start at index `i`. -/
def fillStores (env : Platform) (r i : Nat) : Nat → List Call
  | 0 => []
  | n + 1 => .store i (pixelValue env r) :: fillStores env (r + 3) (i + 1) n

/-- The texture memory after `n` iterations of the fill loop that start at index `i`. -/
def fillPixels (env : Platform) (r i : Nat) : Nat → (Nat → Nat) → (Nat → Nat)
  | 0, p => p
  | n + 1, p => fillPixels env (r + 3) (i + 1) n (Function.update p i (pixelValue env r))

/-- The index written by a store; `none` for every other action. -/
def storeIndex : Call → Option Nat
  | .store i _ => some i
  | _ => none

/-- The buffer slots written by the actions of a log, in order. -/
def writtenSlots (log : List Call) : List Nat := log.filterMap storeIndex

/-- The bound of the fill loop, `g_kRenderWidth * g_kRenderHeight` as a `uint32_t`. -/
def framePixels : Nat := toUInt32 (g_kRenderWidth * g_kRenderHeight)

/-- The actions of a `Render` call whose lock succeeds. -/
def renderLog (env : Platform) (s : State) : List Call :=
  [.SDL_LockTexture s.pTexture] ++ fillStores env s.rands 0 framePixels ++
    [.SDL_UnlockTexture s.pTexture, .SDL_RenderCopy s.pRenderer s.pTexture,
     .SDL_RenderPresent s.pRenderer]

/-- The state after a `Render` call whose lock succeeds. -/
def renderState (env : Platform) (s : State) : State :=
  { s with locks := s.locks + 1, copies := s.copies + 1, presents := s.presents + 1,
           rands := s.rands + 3 * framePixels,
           pixels := fillPixels env s.rands 0 framePixels s.pixels,
           queue := s.queue ++ env.events s.presents,
           log := s.log ++ renderLog env s }

/-- The state after one complete frame iteration (render, input, timer). -/
def frameState (env : Platform) (s : State) : State :=
  { renderState env s with
      queue := [], reads := s.reads + 1,
      log := s.log ++ renderLog env s ++
        List.replicate ((s.queue ++ env.events s.presents).length + 1) .SDL_PollEvent ++
        [.SDL_GetPerformanceCounter] }

/-- The local variables after one complete frame iteration. -/
def frameLocals (env : Platform) (l : Locals) (s : State) : Locals :=
  { l with running := !(s.queue ++ env.events s.presents).any isStop,
           totalTicks := add64 l.totalTicks (sub64 (env.counter s.reads % 2 ^ 64) l.lastTick),
           lastTick := env.counter s.reads % 2 ^ 64,
           totalFramesRendered := add64 l.totalFramesRendered 1 }

/-- The local variables and the state after `n` complete frame iterations. -/
def runFrames (env : Platform) : Nat → Locals × State → Locals × State
  | 0, x => x
  | n + 1, x => runFrames env n (frameLocals env x.1 x.2, frameState env x.2)

/-- The reading returned by the `i`-th call of the timer made from state `s` on. -/
def tick (env : Platform) (s : State) (i : Nat) : Nat := env.counter (s.reads + i) % 2 ^ 64

/-- The local variables after the warm-up iteration. -/
def warmLocals (env : Platform) (s : State) : Locals :=
  { running := true, firstFrame := false, totalTicks := 0, totalFramesRendered := 0,
    lastTick := env.counter s.reads % 2 ^ 64 }

/-- The state after the warm-up iteration. -/
def warmState (s : State) : State :=
  { s with reads := s.reads + 1, log := s.log ++ [.SDL_GetPerformanceCounter] }

/-- The state in which `main` enters the render loop. -/
def loopEntry (env : Platform) : State := (Startup env .var .var .var State.start).2

/-- The local variables and the state of `main` after the warm-up iteration and `k` complete
frame iterations. -/
def afterFrames (env : Platform) (k : Nat) : Locals × State :=
  runFrames env k (warmLocals env (loopEntry env), warmState (loopEntry env))

/-- A graphics resource owned by the program. -/
inductive Resource
  | texture (h : Handle)
  | renderer (h : Handle)
  | window (h : Handle)
  deriving DecidableEq, Repr

/-- The resource an action releases: a destroy call releases its argument unless the argument
is the null pointer, on which SDL does nothing. -/
def released : Call → Option Resource
  | .SDL_DestroyTexture (some h) => some (.texture h)
  | .SDL_DestroyRenderer (some h) => some (.renderer h)
  | .SDL_DestroyWindow (some h) => some (.window h)
  | _ => none

/-- The resources released by the actions of a log, in order. -/
def releases (log : List Call) : List Resource := log.filterMap released

/-! ## Sample platforms -/

/-- A platform on which everything can be created, the first two locks succeed and the third
fails, no event ever arrives and the timer advances by seven ticks per reading. -/
def samplePlatform : Platform :=
  { display := { w := 1280, h := 720 }, window := some 1, renderer := fun _ => some 2,
    texture := some 3, lock := fun k => if k < 2 then (0, 1536) else (-1, 0),
    copy := fun _ => 0, events := fun _ => [], counter := fun k => 100 + 7 * k,
    frequency := 1000, rand := fun k => k }

/-- The sample platform without a renderer: `SDL_CreateRenderer` returns `NULL`. -/
def noRendererPlatform : Platform := { samplePlatform with renderer := fun _ => none }

/-- The sample platform with a failing copy: every lock succeeds, every `SDL_RenderCopy`
returns `-1`. -/
def copyFailsPlatform : Platform :=
  { samplePlatform with lock := fun _ => (0, 1536), copy := fun _ => -1 }

/-- The sample platform with one padding slot per row: every lock succeeds with a pitch of
`1540` bytes, a stride of `385` pixels for rows of `384` visible pixels. -/
def paddedPlatform : Platform := { samplePlatform with lock := fun _ => (0, 1540) }

/-- The sample platform on which no lock ever succeeds. -/
def lockFailsPlatform : Platform := { samplePlatform with lock := fun _ => (-1, 0) }

/-! ## The loops in closed form -/

theorem handle_eq (keep : Bool) (ev : SDL_Event) :
    ProcessInput.handle keep ev = (keep && !isStop ev) := by
  unfold ProcessInput.handle isStop
  by_cases h1 : ev.type = SDL_KEYDOWN <;> by_cases h2 : ev.type = SDL_QUIT <;> simp [h1, h2]

theorem loop_nil (keep : Bool) (s : State) (h : s.queue = []) :
    ProcessInput.loop keep s = (keep, { s with log := s.log ++ [.SDL_PollEvent] }) := by
  rw [ProcessInput.loop]
  have hp : SDL_PollEvent s = (none, { s with log := s.log ++ [.SDL_PollEvent] }) := by
    simp [SDL_PollEvent, h]
  split
  · next ev s1 h1 => rw [hp] at h1; simp at h1
  · next s1 h1 => rw [hp] at h1; simp at h1; rw [h1]

theorem loop_cons (keep : Bool) (s : State) (ev : SDL_Event) (rest : List SDL_Event)
    (h : s.queue = ev :: rest) :
    ProcessInput.loop keep s =
      ProcessInput.loop (ProcessInput.handle keep ev)
        { s with queue := rest, log := s.log ++ [.SDL_PollEvent] } := by
  rw [ProcessInput.loop]
  have hp : SDL_PollEvent s =
      (some ev, { s with queue := rest, log := s.log ++ [.SDL_PollEvent] }) := by
    simp [SDL_PollEvent, h]
  split
  · next ev1 s1 h1 => rw [hp] at h1; simp at h1; rw [h1.1, h1.2]
  · next s1 h1 => rw [hp] at h1; simp at h1

theorem loop_eq (q : List SDL_Event) : ∀ (keep : Bool) (s : State), s.queue = q →
    ProcessInput.loop keep s =
      (keep && !q.any isStop,
        { s with queue := [],
                 log := s.log ++ List.replicate (q.length + 1) .SDL_PollEvent }) := by
  induction q with
  | nil =>
    intro keep s h
    rw [loop_nil keep s h]
    cases s
    simp at h
    simp [h]
  | cons ev rest ih =>
    intro keep s h
    rw [loop_cons keep s ev rest h, ih _ _ rfl, handle_eq]
    simp [List.replicate_succ, Bool.and_assoc]

theorem ProcessInput_eq (s : State) :
    ProcessInput s =
      (!s.queue.any isStop,
        { s with queue := [],
                 log := s.log ++ List.replicate (s.queue.length + 1) .SDL_PollEvent }) := by
  unfold ProcessInput
  rw [loop_eq s.queue true s rfl]
  simp

theorem fill_eq (env : Platform) (bound : Nat) : ∀ (n i : Nat) (s : State), bound - i = n →
    Render.fill env bound i s =
      { s with pixels := fillPixels env s.rands i n s.pixels,
               log := s.log ++ fillStores env s.rands i n,
               rands := s.rands + 3 * n } := by
  intro n
  induction n with
  | zero =>
    intro i s h
    rw [Render.fill]
    have hge : ¬ i < bound := by omega
    simp [hge, fillPixels, fillStores]
  | succ n ih =>
    intro i s h
    rw [Render.fill]
    have hlt : i < bound := by omega
    simp only [hlt, if_true, FastRand]
    rw [ih (i + 1) _ (by omega)]
    simp [fillPixels, fillStores, pixelValue, Nat.add_assoc]
    omega

theorem writtenSlots_fillStores (env : Platform) : ∀ (n r i : Nat),
    writtenSlots (fillStores env r i n) = List.range' i n := by
  intro n
  induction n with
  | zero => intro r i; simp [fillStores, writtenSlots]
  | succ n ih =>
    intro r i
    have := ih (r + 3) (i + 1)
    simp only [writtenSlots] at this
    simp [fillStores, writtenSlots, storeIndex, this, List.range'_succ]

theorem framePixels_eq : framePixels = 82944 := by decide

theorem Render_fail (env : Platform) (w r t : Option Handle) (s : State)
    (h : (env.lock s.locks).1 ≠ 0) :
    Render env w r t s =
      (g_kErrorOccurred,
        { s with locks := s.locks + 1, log := s.log ++ [.SDL_LockTexture t] }) := by
  simp [Render, SDL_LockTexture, h]

theorem Render_ok (env : Platform) (w : Option Handle) (s : State)
    (h : (env.lock s.locks).1 = 0) :
    Render env w s.pRenderer s.pTexture s = (0, renderState env s) := by
  unfold Render renderState renderLog framePixels
  generalize toUInt32 (g_kRenderWidth * g_kRenderHeight) = n
  simp only [SDL_LockTexture, h, if_true]
  rw [fill_eq env n n 0 _ (by simp)]
  simp [SDL_UnlockTexture, SDL_RenderCopy, SDL_RenderPresent, State.emit, List.append_assoc]

/-! ## One iteration of the render loop -/

theorem renderLoop_stopped (env : Platform) (fuel : Nat) (l : Locals) (s : State)
    (h : l.running = false) : renderLoop env fuel l s = some (l, s) := by
  cases fuel <;> simp [renderLoop, h]

theorem renderLoop_warmup (env : Platform) (fuel : Nat) (l : Locals) (s : State)
    (hr : l.running = true) (hf : l.firstFrame = true) :
    renderLoop env (fuel + 1) l s =
      renderLoop env fuel { l with lastTick := env.counter s.reads % 2 ^ 64, firstFrame := false }
        { s with reads := s.reads + 1, log := s.log ++ [.SDL_GetPerformanceCounter] } := by
  simp [renderLoop, hr, hf, SDL_GetPerformanceCounter]

theorem renderLoop_frame_fail (env : Platform) (fuel : Nat) (l : Locals) (s : State)
    (hr : l.running = true) (hf : l.firstFrame = false) (h : (env.lock s.locks).1 ≠ 0) :
    renderLoop env (fuel + 1) l s =
      some (l, { s with locks := s.locks + 1,
                        log := s.log ++ [.SDL_LockTexture s.pTexture,
                                         .diagnostic .renderFailed] }) := by
  simp [renderLoop, hr, hf, Render_fail env _ _ _ s h, e, g_kErrorOccurred, State.emit]

theorem renderLoop_frame_ok (env : Platform) (fuel : Nat) (l : Locals) (s : State)
    (hr : l.running = true) (hf : l.firstFrame = false) (h : (env.lock s.locks).1 = 0) :
    renderLoop env (fuel + 1) l s =
      renderLoop env fuel (frameLocals env l s) (frameState env s) := by
  simp [renderLoop, hr, hf, Render_ok env _ s h, e, ProcessInput_eq, SDL_GetPerformanceCounter,
    frameLocals, frameState, renderState]

/-! ## Several iterations -/

theorem runFrames_succ (env : Platform) (n : Nat) (l : Locals) (s : State) :
    runFrames env (n + 1) (l, s) = runFrames env n (frameLocals env l s, frameState env s) := rfl

theorem renderLoop_runFrames (env : Platform) : ∀ (N fuel : Nat) (l : Locals) (s : State),
    l.running = true → l.firstFrame = false →
    (∀ j < N, (env.lock (runFrames env j (l, s)).2.locks).1 = 0) →
    (∀ j < N, ((runFrames env j (l, s)).2.queue ++
        env.events (runFrames env j (l, s)).2.presents).any isStop = false) →
    renderLoop env (fuel + N) l s =
      renderLoop env fuel (runFrames env N (l, s)).1 (runFrames env N (l, s)).2 := by
  intro N
  induction N with
  | zero => intro fuel l s _ _ _ _; rfl
  | succ N ih =>
    intro fuel l s hr hf hlock hkeep
    have h0 : (env.lock s.locks).1 = 0 := hlock 0 (Nat.succ_pos N)
    have hk0 : (s.queue ++ env.events s.presents).any isStop = false := hkeep 0 (Nat.succ_pos N)
    rw [← Nat.add_assoc, renderLoop_frame_ok env (fuel + N) l s hr hf h0, runFrames_succ]
    apply ih
    · simp only [frameLocals, hk0]; rfl
    · simp [frameLocals, hf]
    · intro j hj
      have := hlock (j + 1) (Nat.succ_lt_succ hj)
      rwa [runFrames_succ] at this
    · intro j hj
      have := hkeep (j + 1) (Nat.succ_lt_succ hj)
      rwa [runFrames_succ] at this

theorem runFrames_state (env : Platform) : ∀ (N : Nat) (l : Locals) (s : State),
    (runFrames env N (l, s)).2.locks = s.locks + N ∧
    (runFrames env N (l, s)).2.presents = s.presents + N ∧
    (runFrames env N (l, s)).2.reads = s.reads + N ∧
    (runFrames env N (l, s)).2.copies = s.copies + N ∧
    (runFrames env N (l, s)).2.pWindow = s.pWindow ∧
    (runFrames env N (l, s)).2.pRenderer = s.pRenderer ∧
    (runFrames env N (l, s)).2.pTexture = s.pTexture ∧
    (s.queue = [] → (runFrames env N (l, s)).2.queue = []) ∧
    (runFrames env N (l, s)).1.firstFrame = l.firstFrame := by
  intro N
  induction N with
  | zero => intro l s; simp [runFrames]
  | succ N ih =>
    intro l s
    rw [runFrames_succ]
    obtain ⟨h1, h2, h3, h4, h5, h6, h7, h8, h9⟩ := ih (frameLocals env l s) (frameState env s)
    refine ⟨?_, ?_, ?_, ?_, ?_, ?_, ?_, ?_, ?_⟩
    · rw [h1]; simp [frameState, renderState]; omega
    · rw [h2]; simp [frameState, renderState]; omega
    · rw [h3]; simp [frameState, renderState]; omega
    · rw [h4]; simp [frameState, renderState]; omega
    · rw [h5]; simp [frameState, renderState]
    · rw [h6]; simp [frameState, renderState]
    · rw [h7]; simp [frameState, renderState]
    · intro _
      exact h8 (by simp [frameState, renderState])
    · rw [h9]; simp [frameLocals]

theorem frame_ticks (tt c last : Nat) :
    (((add64 tt (sub64 c last) : Nat) : Int) - ((c % 2 ^ 64 : Nat) : Int)) % 2 ^ 64 =
      ((tt : Int) - (last : Int)) % 2 ^ 64 := by
  unfold add64 sub64
  omega

theorem runFrames_locals (env : Platform) : ∀ (N : Nat) (l : Locals) (s : State),
    l.totalTicks < 2 ^ 64 → l.totalFramesRendered < 2 ^ 64 →
    (runFrames env N (l, s)).1.totalFramesRendered = (l.totalFramesRendered + N) % 2 ^ 64 ∧
    (runFrames env N (l, s)).1.totalTicks < 2 ^ 64 ∧
    (((runFrames env N (l, s)).1.totalTicks : Int) -
        ((runFrames env N (l, s)).1.lastTick : Int)) % 2 ^ 64 =
      ((l.totalTicks : Int) - (l.lastTick : Int)) % 2 ^ 64 ∧
    (0 < N → (runFrames env N (l, s)).1.lastTick = env.counter (s.reads + (N - 1)) % 2 ^ 64) := by
  intro N
  induction N with
  | zero =>
    intro l s h1 h2
    simp [runFrames]
    omega
  | succ N ih =>
    intro l s h1 h2
    rw [runFrames_succ]
    obtain ⟨a, b, c, d⟩ := ih (frameLocals env l s) (frameState env s)
      (by simp [frameLocals, add64]; omega) (by simp [frameLocals, add64]; omega)
    refine ⟨?_, b, ?_, ?_⟩
    · rw [a]; simp [frameLocals, add64]; omega
    · rw [c]
      have ht := frame_ticks l.totalTicks (env.counter s.reads % 2 ^ 64) l.lastTick
      simp only [frameLocals]
      rw [Nat.mod_mod] at ht
      exact ht
    · intro _
      rcases Nat.eq_zero_or_pos N with h0 | hpos
      · subst h0
        simp [runFrames, frameLocals]
      · rw [d hpos]
        have hr : (frameState env s).reads = s.reads + 1 := by simp [frameState, renderState]
        rw [hr]
        congr 2
        omega

theorem center_coord (d : Int) (width : Nat) (hd0 : 0 ≤ d) (hd : d < 2 ^ 31)
    (hw : width < 2 ^ 32) :
    toInt32 (sub32 (toUInt32 (Int.tdiv d 2)) (width % 2 ^ 32 / 2)) = d / 2 - (width : Int) / 2 := by
  rw [Int.tdiv_eq_ediv hd0 (by decide)]
  unfold toInt32 sub32 toUInt32
  have h1 : ((d / 2 % 2 ^ 32).toNat : Int) = d / 2 := by
    rw [Int.toNat_of_nonneg (by omega)]
    omega
  generalize (d / 2 % 2 ^ 32).toNat = a at h1 ⊢
  split <;> omega

theorem Shutdown_var (s : State) :
    Shutdown .var .var .var s =
      { s with pWindow := none, pRenderer := none, pTexture := none,
               log := s.log ++ [.SDL_DestroyTexture s.pTexture, .SDL_DestroyRenderer s.pRenderer,
                                .SDL_DestroyWindow s.pWindow] } := by
  simp [Shutdown, OutPtr.isNull, SDL_DestroyTexture, SDL_DestroyRenderer, SDL_DestroyWindow,
    State.emit, State.setTexture, State.setRenderer, State.setWindow]

theorem CreateCenteredWindow_eq (env : Platform) (width height : Nat) (s : State) :
    CreateCenteredWindow env width height s =
      (env.window,
        { s with log := s.log ++
            [.SDL_GetCurrentDisplayMode,
             .SDL_CreateWindow
               (toInt32 (sub32 (toUInt32 (Int.tdiv env.display.w 2)) (width % 2 ^ 32 / 2)))
               (toInt32 (sub32 (toUInt32 (Int.tdiv env.display.h 2)) (height % 2 ^ 32 / 2)))
               (toInt32 width) (toInt32 height)] ++
            (if env.window.isNone then [.diagnostic .failedToCreateWindow] else []) }) := by
  cases hw : env.window <;>
    simp [CreateCenteredWindow, SDL_GetCurrentDisplayMode, SDL_CreateWindow, e, State.emit, hw]

theorem Startup_counters (env : Platform) (a b c : OutPtr) (s : State) :
    (Startup env a b c s).2.locks = s.locks ∧ (Startup env a b c s).2.presents = s.presents ∧
    (Startup env a b c s).2.reads = s.reads ∧ (Startup env a b c s).2.queue = s.queue ∧
    (Startup env a b c s).2.pixels = s.pixels := by
  cases a <;> cases b <;> cases c <;> cases hw : env.window <;> cases hr : env.renderer true <;>
    cases ht : env.texture <;>
    simp [Startup, SDL_Init, e, State.emit, OutPtr.isNull, CreateCenteredWindow_eq, Shutdown,
      State.setWindow, State.setRenderer, State.setTexture, CreateRenderer, SDL_CreateRenderer,
      CreateBackBufferTexture, SDL_CreateTexture, SDL_DestroyTexture, SDL_DestroyRenderer,
      SDL_DestroyWindow, hw, hr, ht]

/-! ## Leaving the loop -/

theorem renderLoop_start (env : Platform) (fuel : Nat) (s : State) :
    renderLoop env (fuel + 1) Locals.start s =
      renderLoop env fuel (warmLocals env s) (warmState s) := by
  rw [renderLoop_warmup env fuel Locals.start s rfl rfl]
  rfl

theorem runFrames_succ_last (env : Platform) : ∀ (n : Nat) (x : Locals × State),
    runFrames env (n + 1) x =
      (frameLocals env (runFrames env n x).1 (runFrames env n x).2,
        frameState env (runFrames env n x).2) := by
  intro n
  induction n with
  | zero => intro x; rfl
  | succ n ih =>
    intro x
    have h : runFrames env (n + 1 + 1) x =
        runFrames env (n + 1) (frameLocals env x.1 x.2, frameState env x.2) := rfl
    rw [h, ih]
    rfl

theorem runFrames_running (env : Platform) : ∀ (N : Nat) (l : Locals) (s : State),
    l.running = true →
    (∀ j < N, ((runFrames env j (l, s)).2.queue ++
        env.events (runFrames env j (l, s)).2.presents).any isStop = false) →
    (runFrames env N (l, s)).1.running = true := by
  intro N
  cases N with
  | zero => intro l s h _; exact h
  | succ N =>
    intro l s _ hkeep
    rw [runFrames_succ_last]
    simp only [frameLocals]
    rw [hkeep N (Nat.lt_succ_self N)]
    rfl

theorem renderLoop_exit_fail (env : Platform) (s : State) (N fuel : Nat) (hq : s.queue = [])
    (hrender : ∀ j < N, (env.lock (s.locks + j)).1 = 0)
    (hinput : ∀ j < N, (env.events (s.presents + j)).any isStop = false)
    (hfail : (env.lock (s.locks + N)).1 ≠ 0) (hfuel : N + 2 ≤ fuel) :
    renderLoop env fuel Locals.start s =
      some ((runFrames env N (warmLocals env s, warmState s)).1,
        { (runFrames env N (warmLocals env s, warmState s)).2 with
            locks := s.locks + N + 1,
            log := (runFrames env N (warmLocals env s, warmState s)).2.log ++
              [.SDL_LockTexture s.pTexture, .diagnostic .renderFailed] }) := by
  obtain ⟨f, rfl⟩ : ∃ f, fuel = f + 1 + N + 1 := ⟨fuel - (N + 2), by omega⟩
  have hst := fun j => runFrames_state env j (warmLocals env s) (warmState s)
  have hlock : ∀ j < N,
      (env.lock (runFrames env j (warmLocals env s, warmState s)).2.locks).1 = 0 := by
    intro j hj
    rw [(hst j).1]
    exact hrender j hj
  have hkeep : ∀ j < N, ((runFrames env j (warmLocals env s, warmState s)).2.queue ++
      env.events (runFrames env j (warmLocals env s, warmState s)).2.presents).any isStop
        = false := by
    intro j hj
    rw [(hst j).2.2.2.2.2.2.2.1 hq, (hst j).2.1]
    exact hinput j hj
  rw [renderLoop_start, renderLoop_runFrames env N (f + 1) _ _ rfl rfl hlock hkeep]
  have hrun := runFrames_running env N (warmLocals env s) (warmState s) rfl hkeep
  have hff : (runFrames env N (warmLocals env s, warmState s)).1.firstFrame = false :=
    (hst N).2.2.2.2.2.2.2.2
  have hl : (env.lock (runFrames env N (warmLocals env s, warmState s)).2.locks).1 ≠ 0 := by
    rw [(hst N).1]
    exact hfail
  have hpt : (runFrames env N (warmLocals env s, warmState s)).2.pTexture = s.pTexture :=
    (hst N).2.2.2.2.2.2.1
  have hlk : (runFrames env N (warmLocals env s, warmState s)).2.locks = s.locks + N :=
    (hst N).1
  rw [renderLoop_frame_fail env f _ _ hrun hff hl]
  simp [hpt, hlk]

theorem renderLoop_exit_stop (env : Platform) (s : State) (N fuel : Nat) (hq : s.queue = [])
    (hrender : ∀ j < N + 1, (env.lock (s.locks + j)).1 = 0)
    (hinput : ∀ j < N, (env.events (s.presents + j)).any isStop = false)
    (hstop : (env.events (s.presents + N)).any isStop = true) (hfuel : N + 2 ≤ fuel) :
    renderLoop env fuel Locals.start s =
      some (runFrames env (N + 1) (warmLocals env s, warmState s)) := by
  obtain ⟨f, rfl⟩ : ∃ f, fuel = f + 1 + N + 1 := ⟨fuel - (N + 2), by omega⟩
  have hst := fun j => runFrames_state env j (warmLocals env s) (warmState s)
  have hlock : ∀ j < N,
      (env.lock (runFrames env j (warmLocals env s, warmState s)).2.locks).1 = 0 := by
    intro j hj
    rw [(hst j).1]
    exact hrender j (Nat.lt_succ_of_lt hj)
  have hkeep : ∀ j < N, ((runFrames env j (warmLocals env s, warmState s)).2.queue ++
      env.events (runFrames env j (warmLocals env s, warmState s)).2.presents).any isStop
        = false := by
    intro j hj
    rw [(hst j).2.2.2.2.2.2.2.1 hq, (hst j).2.1]
    exact hinput j hj
  rw [renderLoop_start, renderLoop_runFrames env N (f + 1) _ _ rfl rfl hlock hkeep]
  have hrun := runFrames_running env N (warmLocals env s) (warmState s) rfl hkeep
  have hff : (runFrames env N (warmLocals env s, warmState s)).1.firstFrame = false :=
    (hst N).2.2.2.2.2.2.2.2
  have hl : (env.lock (runFrames env N (warmLocals env s, warmState s)).2.locks).1 = 0 := by
    rw [(hst N).1]
    exact hrender N (Nat.lt_succ_self N)
  have hqn : (runFrames env N (warmLocals env s, warmState s)).2.queue = [] :=
    (hst N).2.2.2.2.2.2.2.1 hq
  have hpn : (runFrames env N (warmLocals env s, warmState s)).2.presents = s.presents + N :=
    (hst N).2.1
  rw [renderLoop_frame_ok env f _ _ hrun hff hl, runFrames_succ_last]
  apply renderLoop_stopped
  simp only [frameLocals]
  rw [hqn, hpn, List.nil_append, hstop]
  rfl

/-! ## The claims -/

/-- C1: after the warm-up iteration and exactly `N` successful frame iterations the loop
leaves with `totalFramesRendered = N` (as a `uint64_t`, so `N` itself when `N < 2^64`) and
`totalTicks` equal to the sum of the `N` differences of consecutive timer readings modulo
`2^64`; the timer has been read `N + 1` times, and the warm-up iteration only reads the timer:
it leaves both totals at zero and makes no `Render` call. -/
theorem renderLoop_warmup_excluded (env : Platform) (s : State) (N fuel : Nat)
    (hq : s.queue = [])
    (hrender : ∀ j < N, (env.lock (s.locks + j)).1 = 0)
    (hinput : ∀ j, j + 1 < N → (env.events (s.presents + j)).any isStop = false)
    (hexit : (0 < N ∧ (env.events (s.presents + (N - 1))).any isStop = true) ∨
      (env.lock (s.locks + N)).1 ≠ 0)
    (hfuel : N + 2 ≤ fuel) :
    ∃ l s1, renderLoop env fuel Locals.start s = some (l, s1) ∧
      l.totalFramesRendered = N % 2 ^ 64 ∧
      (N < 2 ^ 64 → l.totalFramesRendered = N) ∧
      (l.totalTicks : Int) =
        (∑ i in Finset.range N, ((tick env s (i + 1) : Int) - (tick env s i : Int))) % 2 ^ 64 ∧
      s1.reads = s.reads + (N + 1) ∧
      (∀ f, renderLoop env (f + 1) Locals.start s =
        renderLoop env f
          { running := true, firstFrame := false, totalTicks := 0, totalFramesRendered := 0,
            lastTick := tick env s 0 }
          { s with reads := s.reads + 1, log := s.log ++ [.SDL_GetPerformanceCounter] }) := by
  have hloc := runFrames_locals env N (warmLocals env s) (warmState s)
    (by simp [warmLocals]) (by simp [warmLocals])
  have hst := runFrames_state env N (warmLocals env s) (warmState s)
  have hexit2 : ∃ s1, renderLoop env fuel Locals.start s =
      some ((runFrames env N (warmLocals env s, warmState s)).1, s1) ∧
      s1.reads = s.reads + (N + 1) := by
    by_cases hstop : 0 < N ∧ (env.events (s.presents + (N - 1))).any isStop = true
    · obtain ⟨hpos, hs⟩ := hstop
      obtain ⟨M, rfl⟩ : ∃ M, N = M + 1 := ⟨N - 1, by omega⟩
      refine ⟨_, renderLoop_exit_stop env s M fuel hq hrender ?_ hs (by omega), ?_⟩
      · intro j hj
        exact hinput j (Nat.succ_lt_succ hj)
      · have h3 : (runFrames env (M + 1) (warmLocals env s, warmState s)).2.reads =
            s.reads + 1 + (M + 1) := hst.2.2.1
        exact h3.trans (by omega)
    · have hfail : (env.lock (s.locks + N)).1 ≠ 0 := by
        rcases hexit with h | h
        · exact absurd h hstop
        · exact h
      refine ⟨_, renderLoop_exit_fail env s N fuel hq hrender ?_ hfail hfuel, ?_⟩
      · intro j hj
        by_cases hlast : j + 1 < N
        · exact hinput j hlast
        · have hj1 : j = N - 1 := by omega
          have hpos : 0 < N := by omega
          cases hany : (env.events (s.presents + j)).any isStop
          · rfl
          · exact absurd ⟨hpos, hj1 ▸ hany⟩ hstop
      · show (runFrames env N (warmLocals env s, warmState s)).2.reads = _
        rw [hst.2.2.1]
        simp [warmState]
        omega
  obtain ⟨s1, hrun, hreads⟩ := hexit2
  refine ⟨_, s1, hrun, ?_, ?_, ?_, hreads, ?_⟩
  · rw [hloc.1]
    simp [warmLocals]
  · intro hN
    rw [hloc.1]
    simp [warmLocals]
    omega
  · rw [Finset.sum_range_sub (fun i => (tick env s i : Int)) N]
    obtain ⟨_, hlt, hmod, hlast⟩ := hloc
    rcases Nat.eq_zero_or_pos N with h0 | hpos
    · subst h0
      simp [runFrames, warmLocals]
    · have hl : (runFrames env N (warmLocals env s, warmState s)).1.lastTick =
          env.counter (s.reads + 1 + (N - 1)) % 2 ^ 64 := hlast hpos
      have hr : s.reads + 1 + (N - 1) = s.reads + N := by omega
      have hm : (((runFrames env N (warmLocals env s, warmState s)).1.totalTicks : Int) -
          ((runFrames env N (warmLocals env s, warmState s)).1.lastTick : Int)) % 2 ^ 64 =
          ((0 : Int) - ((env.counter s.reads % 2 ^ 64 : Nat) : Int)) % 2 ^ 64 := hmod
      rw [hl, hr] at hm
      simp only [tick, Nat.add_zero]
      omega
  · intro f
    exact renderLoop_start env f s

/-- Witness for C1: two frames on the sample platform, stopped by the third lock failing. -/
theorem renderLoop_warmup_excluded_witness :
    ∃ l s1, renderLoop samplePlatform 4 Locals.start State.start = some (l, s1) ∧
      l.totalFramesRendered = 2 % 2 ^ 64 ∧
      (2 < 2 ^ 64 → l.totalFramesRendered = 2) ∧
      (l.totalTicks : Int) =
        (∑ i in Finset.range 2, ((tick samplePlatform State.start (i + 1) : Int) -
          (tick samplePlatform State.start i : Int))) % 2 ^ 64 ∧
      s1.reads = State.start.reads + (2 + 1) ∧
      (∀ f, renderLoop samplePlatform (f + 1) Locals.start State.start =
        renderLoop samplePlatform f
          { running := true, firstFrame := false, totalTicks := 0, totalFramesRendered := 0,
            lastTick := tick samplePlatform State.start 0 }
          { State.start with reads := State.start.reads + 1,
                             log := State.start.log ++ [.SDL_GetPerformanceCounter] }) :=
  renderLoop_warmup_excluded samplePlatform State.start 2 4 rfl (by decide)
    (fun _ _ => rfl) (Or.inr (by decide)) (by decide)

/-- C2: a single `ProcessInput` call takes every pending event off the queue (the queue is
empty afterwards, and the platform has been polled once per event plus the final empty poll)
and returns `false` exactly when one of the drained events is a key press or a quit request;
for the queue move, move, key press, move it drains all four events and returns `false`. -/
theorem ProcessInput_drains (s : State) :
    (ProcessInput s).2.queue = [] ∧
    (ProcessInput s).2.log = s.log ++ List.replicate (s.queue.length + 1) .SDL_PollEvent ∧
    ((ProcessInput s).1 = false ↔
      ∃ ev ∈ s.queue, ev.type = SDL_KEYDOWN ∨ ev.type = SDL_QUIT) ∧
    (ProcessInput { s with queue := [⟨SDL_MOUSEMOTION⟩, ⟨SDL_MOUSEMOTION⟩, ⟨SDL_KEYDOWN⟩,
        ⟨SDL_MOUSEMOTION⟩] }).1 = false ∧
    (ProcessInput { s with queue := [⟨SDL_MOUSEMOTION⟩, ⟨SDL_MOUSEMOTION⟩, ⟨SDL_KEYDOWN⟩,
        ⟨SDL_MOUSEMOTION⟩] }).2.queue = [] ∧
    (ProcessInput { s with queue := [⟨SDL_MOUSEMOTION⟩, ⟨SDL_MOUSEMOTION⟩, ⟨SDL_KEYDOWN⟩,
        ⟨SDL_MOUSEMOTION⟩] }).2.log = s.log ++ List.replicate 5 .SDL_PollEvent := by
  refine ⟨?_, ?_, ?_, ?_, ?_, ?_⟩
  · rw [ProcessInput_eq]
  · rw [ProcessInput_eq]
  · rw [ProcessInput_eq]
    simp [isStop]
  · rw [ProcessInput_eq]
    simp [isStop, SDL_MOUSEMOTION, SDL_KEYDOWN, SDL_QUIT]
  · rw [ProcessInput_eq]
  · rw [ProcessInput_eq]
    rfl

theorem Startup_no_renderer (env : Platform) (s : State) (w : Handle)
    (hw : env.window = some w) (hr : env.renderer true = none) :
    Startup env .var .var .var s =
      (-1, { s with pWindow := none, pRenderer := none, pTexture := none,
                    log := s.log ++
                      ([.SDL_Init, .SDL_GetCurrentDisplayMode,
                        .SDL_CreateWindow
                          (toInt32 (sub32 (toUInt32 (Int.tdiv env.display.w 2))
                            (toUInt32 g_kWindowWidth % 2 ^ 32 / 2)))
                          (toInt32 (sub32 (toUInt32 (Int.tdiv env.display.h 2))
                            (toUInt32 g_kWindowHeight % 2 ^ 32 / 2)))
                          (toInt32 (toUInt32 g_kWindowWidth))
                          (toInt32 (toUInt32 g_kWindowHeight)),
                        .SDL_CreateRenderer (some w) true,
                        .SDL_CreateTexture none g_kRenderWidth g_kRenderHeight,
                        .diagnostic .failedToCreateBackBufferTexture,
                        .diagnostic .noBackBufferTexture,
                        .SDL_DestroyTexture none, .SDL_DestroyRenderer none,
                        .SDL_DestroyWindow (some w)] : List Call) }) := by
  simp [Startup, SDL_Init, e, State.emit, OutPtr.isNull, CreateCenteredWindow_eq, Shutdown,
    State.setWindow, State.setRenderer, State.setTexture, CreateRenderer, SDL_CreateRenderer,
    CreateBackBufferTexture, SDL_CreateTexture, SDL_DestroyTexture, SDL_DestroyRenderer,
    SDL_DestroyWindow, hw, hr]

/-- C3 (the code departs from the claim): when the window is created and
`SDL_CreateRenderer` returns `NULL`, `Startup` does return `-1`, destroys the window and
leaves the three pointers null, but it reaches that result through
`CreateBackBufferTexture`: line 102 tests `ppRenderer` instead of `*ppRenderer`, so the
"No Renderer" branch is never taken and `SDL_CreateTexture` is called on the null renderer. -/
theorem Startup_attempts_texture_without_renderer (env : Platform) (s : State) (w : Handle)
    (hw : env.window = some w) (hr : env.renderer true = none) :
    (Startup env .var .var .var s).1 = -1 ∧
    (Startup env .var .var .var s).2.pWindow = none ∧
    (Startup env .var .var .var s).2.pRenderer = none ∧
    (Startup env .var .var .var s).2.pTexture = none ∧
    releases ((Startup env .var .var .var s).2.log.drop s.log.length) = [.window w] ∧
    Call.SDL_CreateTexture none g_kRenderWidth g_kRenderHeight ∈
      (Startup env .var .var .var s).2.log.drop s.log.length ∧
    Call.diagnostic .noRenderer ∉ (Startup env .var .var .var s).2.log.drop s.log.length := by
  rw [Startup_no_renderer env s w hw hr]
  simp [releases, released]

/-- Instance of C3 on the platform without a renderer. -/
theorem Startup_attempts_texture_without_renderer_witness :
    (Startup noRendererPlatform .var .var .var State.start).1 = -1 ∧
    (Startup noRendererPlatform .var .var .var State.start).2.pWindow = none ∧
    (Startup noRendererPlatform .var .var .var State.start).2.pRenderer = none ∧
    (Startup noRendererPlatform .var .var .var State.start).2.pTexture = none ∧
    releases ((Startup noRendererPlatform .var .var .var State.start).2.log.drop
      State.start.log.length) = [.window 1] ∧
    Call.SDL_CreateTexture none g_kRenderWidth g_kRenderHeight ∈
      (Startup noRendererPlatform .var .var .var State.start).2.log.drop
        State.start.log.length ∧
    Call.diagnostic .noRenderer ∉
      (Startup noRendererPlatform .var .var .var State.start).2.log.drop
        State.start.log.length :=
  Startup_attempts_texture_without_renderer noRendererPlatform State.start 1 rfl rfl

/-- C7: when the platform fails to lock the texture, `Render` returns `g_kErrorOccurred`,
which is `-1`; its only action is the lock attempt (no store, no unlock, no copy, no present)
and the texture memory is unchanged. -/
theorem Render_lock_failure (env : Platform) (w r t : Option Handle) (s : State)
    (h : (env.lock s.locks).1 ≠ 0) :
    (Render env w r t s).1 = g_kErrorOccurred ∧ g_kErrorOccurred = -1 ∧
    (Render env w r t s).2.log = s.log ++ [.SDL_LockTexture t] ∧
    (Render env w r t s).2.pixels = s.pixels ∧
    (Render env w r t s).2.copies = s.copies ∧
    (Render env w r t s).2.presents = s.presents := by
  rw [Render_fail env w r t s h]
  exact ⟨rfl, rfl, rfl, rfl, rfl, rfl⟩

/-- Witness for C7: a `Render` call on the platform on which no lock succeeds. -/
theorem Render_lock_failure_witness :
    (Render lockFailsPlatform (some 1) (some 2) (some 3) State.start).1 = g_kErrorOccurred ∧
    g_kErrorOccurred = -1 ∧
    (Render lockFailsPlatform (some 1) (some 2) (some 3) State.start).2.log =
      State.start.log ++ [.SDL_LockTexture (some 3)] ∧
    (Render lockFailsPlatform (some 1) (some 2) (some 3) State.start).2.pixels =
      State.start.pixels ∧
    (Render lockFailsPlatform (some 1) (some 2) (some 3) State.start).2.copies =
      State.start.copies ∧
    (Render lockFailsPlatform (some 1) (some 2) (some 3) State.start).2.presents =
      State.start.presents :=
  Render_lock_failure lockFailsPlatform (some 1) (some 2) (some 3) State.start (by decide)

theorem Render_fst (env : Platform) (w r t : Option Handle) (s : State) :
    (Render env w r t s).1 = if (env.lock s.locks).1 = 0 then 0 else g_kErrorOccurred := by
  unfold Render
  simp only [SDL_LockTexture]
  split <;> rfl

/-- C6 (as stated it fails): on the platform whose copies fail the lock succeeds, the copy
returns `-1`, and `Render` still returns `0`. -/
theorem Render_copy_failure_unreported :
    (copyFailsPlatform.lock State.start.locks).1 = 0 ∧
    copyFailsPlatform.copy State.start.copies = -1 ∧
    (Render copyFailsPlatform (some 1) (some 2) (some 3) State.start).1 = 0 := by
  refine ⟨rfl, rfl, ?_⟩
  rw [Render_fst]
  rfl

theorem Render_effects (env : Platform) (w r t : Option Handle) (s : State)
    (h : (env.lock s.locks).1 = 0) :
    (Render env w r t s).2.log =
      s.log ++ [.SDL_LockTexture t] ++ fillStores env s.rands 0 framePixels ++
        [.SDL_UnlockTexture t, .SDL_RenderCopy r t, .SDL_RenderPresent r] ∧
    (Render env w r t s).2.copies = s.copies + 1 ∧
    (Render env w r t s).2.presents = s.presents + 1 := by
  unfold Render framePixels
  generalize toUInt32 (g_kRenderWidth * g_kRenderHeight) = n
  simp only [SDL_LockTexture, h, if_true]
  rw [fill_eq env n n 0 _ (by simp)]
  simp [SDL_UnlockTexture, SDL_RenderCopy, SDL_RenderPresent, State.emit, List.append_assoc]

/-- C6 (amended): `Render` returns `0` exactly when the lock succeeds and `-1` otherwise, and
the return code of `SDL_RenderCopy` has no influence on the result.  Whenever the lock
succeeds, `Render` performs, after the lock, the stores of the fill, then the unlock, one
copy and one present, in that order.  A running loop past its warm-up whose lock succeeds
goes on to input and timer whatever the copy returned: the frame is counted and the loop
keeps running exactly when no key press or quit request is pending. -/
theorem Render_result_is_lock_result (env : Platform) (w r t : Option Handle) (s : State) :
    ((Render env w r t s).1 = 0 ↔ (env.lock s.locks).1 = 0) ∧
    ((Render env w r t s).1 ≠ 0 → (Render env w r t s).1 = -1) ∧
    (∀ c : Nat → Int, (Render { env with copy := c } w r t s).1 = (Render env w r t s).1) ∧
    ((env.lock s.locks).1 = 0 →
      (Render env w r t s).2.log =
        s.log ++ [.SDL_LockTexture t] ++ fillStores env s.rands 0 framePixels ++
          [.SDL_UnlockTexture t, .SDL_RenderCopy r t, .SDL_RenderPresent r] ∧
      (Render env w r t s).2.copies = s.copies + 1 ∧
      (Render env w r t s).2.presents = s.presents + 1) ∧
    (∀ (fuel : Nat) (l : Locals), l.running = true → l.firstFrame = false →
      (env.lock s.locks).1 = 0 →
      renderLoop env (fuel + 1) l s =
        renderLoop env fuel (frameLocals env l s) (frameState env s) ∧
      (frameLocals env l s).running = !(s.queue ++ env.events s.presents).any isStop ∧
      (frameLocals env l s).totalFramesRendered = add64 l.totalFramesRendered 1 ∧
      (frameState env s).log =
        s.log ++ [.SDL_LockTexture s.pTexture] ++ fillStores env s.rands 0 framePixels ++
          [.SDL_UnlockTexture s.pTexture, .SDL_RenderCopy s.pRenderer s.pTexture,
           .SDL_RenderPresent s.pRenderer] ++
          List.replicate ((s.queue ++ env.events s.presents).length + 1) .SDL_PollEvent ++
          [.SDL_GetPerformanceCounter]) := by
  refine ⟨?_, ?_, ?_, ?_, ?_⟩
  · rw [Render_fst]
    by_cases h : (env.lock s.locks).1 = 0 <;> simp [h, g_kErrorOccurred]
  · rw [Render_fst]
    by_cases h : (env.lock s.locks).1 = 0 <;> simp [h, g_kErrorOccurred]
  · intro c
    rw [Render_fst, Render_fst]
  · intro h
    exact Render_effects env w r t s h
  · intro fuel l hr hf h
    refine ⟨renderLoop_frame_ok env fuel l s hr hf h, rfl, rfl, ?_⟩
    simp [frameState, renderLog, List.append_assoc]

/-- Witness for C6 (amended): on the platform whose copies fail, the first `Render` call
unlocks, copies and presents, and the first frame after the warm-up is counted. -/
theorem Render_result_is_lock_result_witness :
    ((Render copyFailsPlatform (some 1) (some 2) (some 3) State.start).2.log =
        State.start.log ++ [.SDL_LockTexture (some 3)] ++
          fillStores copyFailsPlatform State.start.rands 0 framePixels ++
          [.SDL_UnlockTexture (some 3), .SDL_RenderCopy (some 2) (some 3),
           .SDL_RenderPresent (some 2)] ∧
      (Render copyFailsPlatform (some 1) (some 2) (some 3) State.start).2.copies =
        State.start.copies + 1 ∧
      (Render copyFailsPlatform (some 1) (some 2) (some 3) State.start).2.presents =
        State.start.presents + 1) ∧
    (renderLoop copyFailsPlatform (0 + 1) (warmLocals copyFailsPlatform State.start)
        State.start =
        renderLoop copyFailsPlatform 0
          (frameLocals copyFailsPlatform (warmLocals copyFailsPlatform State.start) State.start)
          (frameState copyFailsPlatform State.start) ∧
      (frameLocals copyFailsPlatform (warmLocals copyFailsPlatform State.start)
        State.start).running =
        !(State.start.queue ++ copyFailsPlatform.events State.start.presents).any isStop ∧
      (frameLocals copyFailsPlatform (warmLocals copyFailsPlatform State.start)
        State.start).totalFramesRendered =
        add64 (warmLocals copyFailsPlatform State.start).totalFramesRendered 1 ∧
      (frameState copyFailsPlatform State.start).log =
        State.start.log ++ [.SDL_LockTexture State.start.pTexture] ++
          fillStores copyFailsPlatform State.start.rands 0 framePixels ++
          [.SDL_UnlockTexture State.start.pTexture,
           .SDL_RenderCopy State.start.pRenderer State.start.pTexture,
           .SDL_RenderPresent State.start.pRenderer] ++
          List.replicate ((State.start.queue ++
            copyFailsPlatform.events State.start.presents).length + 1) .SDL_PollEvent ++
          [.SDL_GetPerformanceCounter]) :=
  ⟨(Render_result_is_lock_result copyFailsPlatform (some 1) (some 2) (some 3)
      State.start).2.2.2.1 rfl,
   (Render_result_is_lock_result copyFailsPlatform (some 1) (some 2) (some 3)
      State.start).2.2.2.2 0 (warmLocals copyFailsPlatform State.start) rfl rfl rfl⟩

theorem Render_writtenSlots (env : Platform) (w : Option Handle) (s : State)
    (h : (env.lock s.locks).1 = 0) :
    writtenSlots ((Render env w s.pRenderer s.pTexture s).2.log.drop s.log.length) =
      List.range framePixels := by
  rw [Render_ok env w s h]
  have hlog : (renderState env s).log = s.log ++ renderLog env s := rfl
  rw [hlog, List.drop_left, List.range_eq_range']
  unfold renderLog
  generalize framePixels = n
  have hw := writtenSlots_fillStores env n s.rands 0
  simp only [writtenSlots] at hw
  simp [writtenSlots, List.filterMap_append, storeIndex, hw]

/-- C4 (the code departs from the claim): whatever pitch the lock reports (the platform is
arbitrary), the fill of `Render` writes the slots `0, 1, ..., 82943` in a row, because the
pitch computed on line 169 is never used for addressing.  For every stride larger than
`g_kRenderWidth` it therefore writes the padding slot at row `0`, column `g_kRenderWidth`,
and never writes the visible pixel at row `g_kRenderHeight - 1`, column
`g_kRenderWidth - 1`; no write goes beyond the buffer. -/
theorem Render_fill_ignores_stride (env : Platform) (w : Option Handle) (s : State)
    (stride : Nat) (h : (env.lock s.locks).1 = 0) (hstride : g_kRenderWidth < stride) :
    writtenSlots ((Render env w s.pRenderer s.pTexture s).2.log.drop s.log.length) =
      List.range 82944 ∧
    0 * stride + g_kRenderWidth.toNat ∈
      writtenSlots ((Render env w s.pRenderer s.pTexture s).2.log.drop s.log.length) ∧
    (g_kRenderHeight.toNat - 1) * stride + (g_kRenderWidth.toNat - 1) ∉
      writtenSlots ((Render env w s.pRenderer s.pTexture s).2.log.drop s.log.length) ∧
    ∀ i ∈ writtenSlots ((Render env w s.pRenderer s.pTexture s).2.log.drop s.log.length),
      i < g_kRenderHeight.toNat * stride := by
  have hW : g_kRenderWidth = 384 := by decide
  have hH : g_kRenderHeight = 216 := by decide
  rw [Render_writtenSlots env w s h, framePixels_eq, hW, hH]
  rw [hW] at hstride
  have hs : 384 < stride := by exact_mod_cast hstride
  refine ⟨rfl, ?_, ?_, ?_⟩
  · rw [List.mem_range]
    simp
  · rw [List.mem_range]
    simp
    omega
  · intro i hi
    rw [List.mem_range] at hi
    simp
    omega

/-- Instance of C4 on the platform with one padding slot per row. -/
theorem Render_fill_ignores_stride_witness :
    writtenSlots ((Render paddedPlatform none State.start.pRenderer State.start.pTexture
      State.start).2.log.drop State.start.log.length) = List.range 82944 ∧
    0 * 385 + g_kRenderWidth.toNat ∈
      writtenSlots ((Render paddedPlatform none State.start.pRenderer State.start.pTexture
        State.start).2.log.drop State.start.log.length) ∧
    (g_kRenderHeight.toNat - 1) * 385 + (g_kRenderWidth.toNat - 1) ∉
      writtenSlots ((Render paddedPlatform none State.start.pRenderer State.start.pTexture
        State.start).2.log.drop State.start.log.length) ∧
    ∀ i ∈ writtenSlots ((Render paddedPlatform none State.start.pRenderer
        State.start.pTexture State.start).2.log.drop State.start.log.length),
      i < g_kRenderHeight.toNat * 385 :=
  Render_fill_ignores_stride paddedPlatform none State.start 385 rfl (by decide)

/-- C8: for every state of the three pointers, `Shutdown` called with the addresses of the
three variables releases the live resources once each, in the order texture, renderer,
window, and leaves the three pointers null; a second call releases nothing, leaves the three
pointers null and changes nothing but the log, which records three destroy calls on null
pointers. -/
theorem Shutdown_idempotent (s : State) :
    releases ((Shutdown .var .var .var s).log.drop s.log.length) =
      (s.pTexture.map Resource.texture).toList ++ (s.pRenderer.map Resource.renderer).toList ++
        (s.pWindow.map Resource.window).toList ∧
    (Shutdown .var .var .var s).pTexture = none ∧
    (Shutdown .var .var .var s).pRenderer = none ∧
    (Shutdown .var .var .var s).pWindow = none ∧
    releases ((Shutdown .var .var .var (Shutdown .var .var .var s)).log.drop
      (Shutdown .var .var .var s).log.length) = [] ∧
    Shutdown .var .var .var (Shutdown .var .var .var s) =
      { Shutdown .var .var .var s with
          log := (Shutdown .var .var .var s).log ++
            [.SDL_DestroyTexture none, .SDL_DestroyRenderer none, .SDL_DestroyWindow none] } := by
  have h1 := Shutdown_var s
  have h2 := Shutdown_var (Shutdown .var .var .var s)
  refine ⟨?_, ?_, ?_, ?_, ?_, ?_⟩
  · rw [h1]
    simp only [List.drop_left]
    cases s.pTexture <;> cases s.pRenderer <;> cases s.pWindow <;> simp [releases, released]
  · rw [h1]
  · rw [h1]
  · rw [h1]
  · rw [h2, List.drop_left, h1]
    simp [releases, released]
  · rw [h2, h1]

/-- C10: for a display of `dw` by `dh` pixels with `0 ≤ dw, dh < 2^31` and a window of
`width` by `height` with `width, height < 2^32`, the origin passed to `SDL_CreateWindow` is
`dw / 2 - width / 2`, `dh / 2 - height / 2` as mathematical integers, negative values
included. -/
theorem CreateCenteredWindow_origin (env : Platform) (width height : Nat) (s : State)
    (hw0 : 0 ≤ env.display.w) (hw1 : env.display.w < 2 ^ 31)
    (hh0 : 0 ≤ env.display.h) (hh1 : env.display.h < 2 ^ 31)
    (hwidth : width < 2 ^ 32) (hheight : height < 2 ^ 32) :
    (CreateCenteredWindow env width height s).2.log =
      s.log ++
        [.SDL_GetCurrentDisplayMode,
         .SDL_CreateWindow (env.display.w / 2 - (width : Int) / 2)
           (env.display.h / 2 - (height : Int) / 2) (toInt32 width) (toInt32 height)] ++
        (if env.window.isNone then [.diagnostic .failedToCreateWindow] else []) := by
  rw [CreateCenteredWindow_eq, center_coord env.display.w width hw0 hw1 hwidth,
    center_coord env.display.h height hh0 hh1 hheight]

/-- Witness for C10: a 1920 by 1080 window on a 1280 by 720 display has a negative origin. -/
theorem CreateCenteredWindow_origin_witness :
    (CreateCenteredWindow samplePlatform 1920 1080 State.start).2.log =
      State.start.log ++
        [.SDL_GetCurrentDisplayMode,
         .SDL_CreateWindow (samplePlatform.display.w / 2 - ((1920 : Nat) : Int) / 2)
           (samplePlatform.display.h / 2 - ((1080 : Nat) : Int) / 2) (toInt32 1920)
           (toInt32 1080)] ++
        (if samplePlatform.window.isNone then [.diagnostic .failedToCreateWindow] else []) :=
  CreateCenteredWindow_origin samplePlatform 1920 1080 State.start (by decide) (by decide)
    (by decide) (by decide) (by decide) (by decide)

theorem main_exit_fail (env : Platform) (k fuel : Nat)
    (hstart : (Startup env .var .var .var State.start).1 = 0)
    (hrender : ∀ j < k, (env.lock j).1 = 0)
    (hinput : ∀ j < k, (env.events j).any isStop = false)
    (hfail : (env.lock k).1 ≠ 0) (hfuel : k + 2 ≤ fuel) :
    main env fuel =
      some (0,
        { (afterFrames env k).2 with
            pWindow := none, pRenderer := none, pTexture := none, locks := k + 1,
            log := (afterFrames env k).2.log ++
              [.SDL_LockTexture (loopEntry env).pTexture, .diagnostic .renderFailed,
               .cout (.totalFrames (afterFrames env k).1.totalFramesRendered),
               .SDL_GetPerformanceFrequency,
               .cout (.totalTime (afterFrames env k).1.totalTicks (env.frequency % 2 ^ 64)),
               .SDL_GetPerformanceFrequency,
               .cout (.averageFPS (afterFrames env k).1.totalFramesRendered
                 (env.frequency % 2 ^ 64) (afterFrames env k).1.totalTicks),
               .SDL_DestroyTexture (loopEntry env).pTexture,
               .SDL_DestroyRenderer (loopEntry env).pRenderer,
               .SDL_DestroyWindow (loopEntry env).pWindow] }) := by
  have hc := Startup_counters env .var .var .var State.start
  have hS : Startup env .var .var .var State.start = (0, loopEntry env) :=
    Prod.ext hstart rfl
  have hq : (loopEntry env).queue = [] := hc.2.2.2.1
  have hl : (loopEntry env).locks = 0 := hc.1
  have hp : (loopEntry env).presents = 0 := hc.2.1
  have hloop := renderLoop_exit_fail env (loopEntry env) k fuel hq
    (by intro j hj; rw [hl, Nat.zero_add]; exact hrender j hj)
    (by intro j hj; rw [hp, Nat.zero_add]; exact hinput j hj)
    (by rw [hl, Nat.zero_add]; exact hfail) hfuel
  have hst := runFrames_state env k (warmLocals env (loopEntry env)) (warmState (loopEntry env))
  have h5 : (afterFrames env k).2.pWindow = (loopEntry env).pWindow := hst.2.2.2.2.1
  have h6 : (afterFrames env k).2.pRenderer = (loopEntry env).pRenderer := hst.2.2.2.2.2.1
  have h7 : (afterFrames env k).2.pTexture = (loopEntry env).pTexture := hst.2.2.2.2.2.2.1
  have hb : ((0 : Int) != 0) = false := rfl
  unfold main
  simp only [hS, e, hb, Bool.false_eq_true, if_false]
  rw [hloop]
  simp [report, SDL_GetPerformanceFrequency, State.emit, Shutdown_var, afterFrames, hl]
  refine ⟨?_, ?_, ?_⟩
  · exact h7
  · exact h6
  · exact h5

/-- C5 (as stated it fails): on the platform on which no lock succeeds the loop leaves with
zero frames and zero ticks, and the statistics still evaluate and print the quotient
`double(0) * 1000 / 0`. -/
theorem main_divides_by_zero_ticks :
    (main lockFailsPlatform 2).map (fun r => (r.1, r.2.log)) =
      some (0,
        [.SDL_Init, .SDL_GetCurrentDisplayMode, .SDL_CreateWindow (-320) (-180) 1920 1080,
         .SDL_CreateRenderer (some 1) true, .SDL_CreateTexture (some 2) 384 216,
         .SDL_GetPerformanceCounter, .SDL_LockTexture (some 3), .diagnostic .renderFailed,
         .cout (.totalFrames 0), .SDL_GetPerformanceFrequency, .cout (.totalTime 0 1000),
         .SDL_GetPerformanceFrequency, .cout (.averageFPS 0 1000 0),
         .SDL_DestroyTexture (some 3), .SDL_DestroyRenderer (some 2),
         .SDL_DestroyWindow (some 1)]) := by
  decide

/-- C5 (amended): when startup succeeds and the first `Render` call fails, so that the loop
leaves with zero completed frames, `main` returns `0` with the three pointers null, and what it
does after entering the loop is exactly: the warm-up timer read, the failed lock, the
diagnostic, the three statistics lines printed unguarded (total frames `0`, total time
`0 / frequency`, and the average `double(0) * frequency / 0`, whose divisor is
`totalTicks = 0`), and the three destroy calls in the order texture, renderer, window. -/
theorem main_zero_frames_statistics (env : Platform) (fuel : Nat)
    (hstart : (Startup env .var .var .var State.start).1 = 0)
    (hfail : (env.lock 0).1 ≠ 0) (hfuel : 2 ≤ fuel) :
    ∃ s, main env fuel = some (0, s) ∧
      s.pWindow = none ∧ s.pRenderer = none ∧ s.pTexture = none ∧
      s.log = (loopEntry env).log ++
        [.SDL_GetPerformanceCounter,
         .SDL_LockTexture (loopEntry env).pTexture, .diagnostic .renderFailed,
         .cout (.totalFrames 0), .SDL_GetPerformanceFrequency,
         .cout (.totalTime 0 (env.frequency % 2 ^ 64)), .SDL_GetPerformanceFrequency,
         .cout (.averageFPS 0 (env.frequency % 2 ^ 64) 0),
         .SDL_DestroyTexture (loopEntry env).pTexture,
         .SDL_DestroyRenderer (loopEntry env).pRenderer,
         .SDL_DestroyWindow (loopEntry env).pWindow] ∧
      releases (s.log.drop (loopEntry env).log.length) =
        ((loopEntry env).pTexture.map Resource.texture).toList ++
          ((loopEntry env).pRenderer.map Resource.renderer).toList ++
          ((loopEntry env).pWindow.map Resource.window).toList := by
  have hmain := main_exit_fail env 0 fuel hstart (by intro j hj; omega) (by intro j hj; omega)
    hfail (by omega)
  have h1 : (afterFrames env 0).1.totalFramesRendered = 0 := rfl
  have h2 : (afterFrames env 0).1.totalTicks = 0 := rfl
  have h3 : (afterFrames env 0).2.log = (loopEntry env).log ++ [.SDL_GetPerformanceCounter] :=
    rfl
  refine ⟨_, hmain, rfl, rfl, rfl, ?_, ?_⟩
  · simp [h1, h2, h3]
  · simp only [h1, h2, h3, List.append_assoc, List.drop_left]
    cases (loopEntry env).pTexture <;> cases (loopEntry env).pRenderer <;>
      cases (loopEntry env).pWindow <;> simp [releases, released]

/-- Witness for C5 (amended): the platform on which no lock succeeds. -/
theorem main_zero_frames_statistics_witness :
    ∃ s, main lockFailsPlatform 2 = some (0, s) ∧
      s.pWindow = none ∧ s.pRenderer = none ∧ s.pTexture = none ∧
      s.log = (loopEntry lockFailsPlatform).log ++
        [.SDL_GetPerformanceCounter,
         .SDL_LockTexture (loopEntry lockFailsPlatform).pTexture, .diagnostic .renderFailed,
         .cout (.totalFrames 0), .SDL_GetPerformanceFrequency,
         .cout (.totalTime 0 (lockFailsPlatform.frequency % 2 ^ 64)),
         .SDL_GetPerformanceFrequency,
         .cout (.averageFPS 0 (lockFailsPlatform.frequency % 2 ^ 64) 0),
         .SDL_DestroyTexture (loopEntry lockFailsPlatform).pTexture,
         .SDL_DestroyRenderer (loopEntry lockFailsPlatform).pRenderer,
         .SDL_DestroyWindow (loopEntry lockFailsPlatform).pWindow] ∧
      releases (s.log.drop (loopEntry lockFailsPlatform).log.length) =
        ((loopEntry lockFailsPlatform).pTexture.map Resource.texture).toList ++
          ((loopEntry lockFailsPlatform).pRenderer.map Resource.renderer).toList ++
          ((loopEntry lockFailsPlatform).pWindow.map Resource.window).toList :=
  main_zero_frames_statistics lockFailsPlatform 2 (by decide) (by decide) (by decide)

end PixelPusher
